import Mathlib

/-!
A verification development for the static source-analysis engine in
`Developer_Productivity/codeQualityChecker.py` (class `CodeQualityChecker`).

The Python code is shallowly embedded:

* A fragment of the Python abstract syntax tree (`ast` module) is embedded as
  the mutual inductives `PyExpr`/`ExprList` and `PyStmt`/`StmtList`/`HandlerList`.
  Custom list types are used instead of `List` so that all traversals are
  plain structural recursion.  Only the node kinds the analyzer inspects are
  modelled with structure (`If`, `While`, `For`, `AsyncFor`, `Try`/`ExceptHandler`,
  `BoolOp`, `FunctionDef`, `AsyncFunctionDef`, `ClassDef`, `Name`); a few
  representative leaf statements stand in for all other statement kinds,
  which the analyzer treats uniformly (they contribute nothing and are
  traversed into only through their expression fields).  Line numbers
  (`node.lineno`) are carried exactly on the node kinds whose line number an
  emitted issue reports.
* `ast.walk` is a breadth-first traversal in CPython; it is modelled here in
  document (depth-first) order.  Every property proved below is insensitive
  to the order in which walked nodes are visited (counts, sums, and sets of
  emitted issues per node), so only the multiset of visited nodes matters.
* Python `float` arithmetic (the maintainability-index and score formulas)
  is modelled over `ℚ` with the literals `5.2`, `0.23`, `16.2` as the exact
  rationals `26/5`, `23/100`, `81/5`.  Python's `round(x, 2)` (round half to
  even on the scaled value) is modelled by `roundHalfEven` on `ℚ`.
* fallible file reading/parsing is modelled by `ParseOutcome`; message
  f-strings are modelled by the inductive `PyMessage`, whose constructors
  carry exactly the interpolated values of the corresponding f-string.
* the best-effort external-tool runner (`run_external_tools`) is modelled as
  absent/unavailable (it contributes no issues), matching its catch-all
  swallow behaviour when `flake8` is not installed.
-/

namespace CodeQuality

/-! ## Python string helpers (ASCII fragment)

`str.strip` / `str.rstrip` with no argument strip the whitespace characters;
the ASCII whitespace set is modelled.  `str.rstrip('\n')` strips only `'\n'`.
-/

def isPyWhitespace (c : Char) : Bool :=
  c == ' ' || c == '\t' || c == '\n' || c == '\x0d' || c == '\x0b' || c == '\x0c'

def rstripBy (p : Char → Bool) (l : List Char) : List Char :=
  (l.reverse.dropWhile p).reverse

/-- Embeds `line.rstrip('\n')`. -/
def pyRstripNewline (l : List Char) : List Char :=
  rstripBy (fun c => c == '\n') l

/-- Embeds `line.rstrip()`. -/
def pyRstrip (l : List Char) : List Char :=
  rstripBy isPyWhitespace l

/-- Embeds `line.strip()`. -/
def pyStrip (l : List Char) : List Char :=
  pyRstrip (l.dropWhile isPyWhitespace)

/-- Embeds `line.strip().startswith('#')` — a comment line in `calculate_metrics`. -/
def isCommentLine (l : List Char) : Bool :=
  match pyStrip l with
  | '#' :: _ => true
  | _ => false

/-- Embeds `line.strip() == ''` — a blank line in `calculate_metrics`. -/
def isBlankLine (l : List Char) : Bool :=
  (pyStrip l).isEmpty

/-- A character is cased (ASCII fragment of Python's notion). -/
def pyIsCased (c : Char) : Bool := c.isUpper || c.isLower

/-- Embeds `s.islower()`: at least one cased character, and no cased character is
upper case. -/
def pyIslower (s : List Char) : Bool :=
  s.any pyIsCased && s.all (fun c => !c.isUpper)

/-- Embeds `s.isupper()`: at least one cased character, and no cased character is
lower case. -/
def pyIsupper (s : List Char) : Bool :=
  s.any pyIsCased && s.all (fun c => !c.isLower)

/-- Embeds `'_' in s`. -/
def containsUnderscore (s : List Char) : Bool :=
  s.any (fun c => c == '_')

/-- Embeds `s[0].isupper()` (class names are never empty when produced by the
parser; the empty case is arbitrary). -/
def pyFirstUpper (s : List Char) : Bool :=
  match s with
  | c :: _ => c.isUpper
  | [] => false

/-! ## The embedded `ast` fragment -/

mutual

inductive PyExpr : Type where
  /-- Embeds `ast.BoolOp(op, values)` — one `and`/`or` chain; `values` are the
  operands (at least two for trees produced by the parser). -/
  | boolOp : ExprList → PyExpr
  /-- Embeds `ast.Name(id, ctx=Store())` at line `lineno` — an assignment target. -/
  | nameStore : String → Nat → PyExpr
  /-- Embeds `ast.Name(id, ctx=Load())`. -/
  | nameLoad : String → PyExpr
  /-- any constant/other leaf expression. -/
  | constE : PyExpr

inductive ExprList : Type where
  | nil : ExprList
  | cons : PyExpr → ExprList → ExprList

end

mutual

inductive PyStmt : Type where
  /-- Embeds `ast.FunctionDef(name, …, body)` at line `lineno`. -/
  | functionDef : String → Nat → StmtList → PyStmt
  /-- Embeds `ast.AsyncFunctionDef(name, …, body)` at line `lineno` — a distinct
  node class, not a subclass of `ast.FunctionDef`. -/
  | asyncFunctionDef : String → Nat → StmtList → PyStmt
  /-- Embeds `ast.ClassDef(name, …, body)` at line `lineno`. -/
  | classDef : String → Nat → StmtList → PyStmt
  /-- Embeds `ast.If(test, body, orelse)`; an `elif` chain is a nested `If` in
  `orelse`. -/
  | ifStmt : PyExpr → StmtList → StmtList → PyStmt
  /-- Embeds `ast.While(test, body, orelse)`. -/
  | whileStmt : PyExpr → StmtList → StmtList → PyStmt
  /-- Embeds `ast.For(target, iter, body, orelse)` (`iter` kept; target elided). -/
  | forStmt : PyExpr → StmtList → StmtList → PyStmt
  /-- Embeds `ast.AsyncFor(target, iter, body, orelse)`. -/
  | asyncForStmt : PyExpr → StmtList → StmtList → PyStmt
  /-- Embeds `ast.Try(body, handlers, orelse, finalbody)`; each handler is an
  `ast.ExceptHandler` node with its own body. -/
  | tryStmt : StmtList → HandlerList → StmtList → StmtList → PyStmt
  /-- Embeds `ast.Expr(value)` — an expression statement. -/
  | exprStmt : PyExpr → PyStmt
  /-- Embeds `ast.Assign([target], value)` with a single target. -/
  | assign : PyExpr → PyExpr → PyStmt
  /-- Embeds `ast.Return(value)`. -/
  | ret : PyExpr → PyStmt
  /-- Embeds `ast.Pass` (stands in for every other leaf statement). -/
  | passStmt : PyStmt

inductive StmtList : Type where
  | nil : StmtList
  | cons : PyStmt → StmtList → StmtList

inductive HandlerList : Type where
  | nil : HandlerList
  /-- one `ast.ExceptHandler` node, carrying its body. -/
  | cons : StmtList → HandlerList → HandlerList

end

/-- The body of a parsed `ast.Module`. -/
abbrev Module := StmtList

def StmtList.one (s : PyStmt) : StmtList := .cons s .nil

def StmtList.two (s t : PyStmt) : StmtList := .cons s (.cons t .nil)

def ExprList.length : ExprList → Nat
  | .nil => 0
  | .cons _ rest => 1 + ExprList.length rest

/-! ## `_calculate_complexity` and `_calculate_class_complexity`

`_calculate_complexity(node)` iterates `ast.walk(node)` — every descendant
node including nested function definitions — starting from complexity `1`,
adding `1` for each `If`/`While`/`For`/`AsyncFor` node, `1` for each
`ExceptHandler` node, and `len(values) - 1` for each `BoolOp` node.
`branchesS`/`branchesSL`/`branchesHL`/`branchesE`/`branchesEL` compute the
total contribution of all nodes in the walked subtree.

CPython never produces a `BoolOp` with fewer than two operands, so the `ℕ`
truncation in `length - 1` agrees with Python's `len(child.values) - 1` on
every tree the parser can return. -/

mutual

def branchesE : PyExpr → Nat
  | .boolOp values => (ExprList.length values - 1) + branchesEL values
  | .nameStore _ _ => 0
  | .nameLoad _ => 0
  | .constE => 0

def branchesEL : ExprList → Nat
  | .nil => 0
  | .cons e rest => branchesE e + branchesEL rest

end

mutual

def branchesS : PyStmt → Nat
  | .functionDef _ _ body => branchesSL body
  | .asyncFunctionDef _ _ body => branchesSL body
  | .classDef _ _ body => branchesSL body
  | .ifStmt test body orelse => 1 + branchesE test + branchesSL body + branchesSL orelse
  | .whileStmt test body orelse => 1 + branchesE test + branchesSL body + branchesSL orelse
  | .forStmt iter body orelse => 1 + branchesE iter + branchesSL body + branchesSL orelse
  | .asyncForStmt iter body orelse => 1 + branchesE iter + branchesSL body + branchesSL orelse
  | .tryStmt body handlers orelse finalbody =>
      branchesSL body + branchesHL handlers + branchesSL orelse + branchesSL finalbody
  | .exprStmt e => branchesE e
  | .assign target value => branchesE target + branchesE value
  | .ret e => branchesE e
  | .passStmt => 0

def branchesSL : StmtList → Nat
  | .nil => 0
  | .cons s rest => branchesS s + branchesSL rest

def branchesHL : HandlerList → Nat
  | .nil => 0
  | .cons body rest => 1 + branchesSL body + branchesHL rest

end

/-- Embeds `_calculate_complexity(node)`: `1` plus the contribution of every node
in `ast.walk(node)`.  In the analyzer it is only ever applied to
`FunctionDef` nodes. -/
def calculateComplexity (node : PyStmt) : Nat :=
  1 + branchesS node

/-- Embeds `_calculate_class_complexity(node)` summed over `node.body`: adds
`_calculate_complexity(item)` for exactly the items of the class body that
are `ast.FunctionDef` nodes. -/
def calculateClassComplexity : StmtList → Nat
  | .nil => 0
  | .cons s rest =>
      (match s with
       | .functionDef name lineno body => calculateComplexity (.functionDef name lineno body)
       | _ => 0) + calculateClassComplexity rest

/-! ## Issues

`CodeIssue` embeds the `CodeIssue` dataclass.  The `message` f-strings are
embedded by `PyMessage`: each constructor corresponds to one message
template of the source and carries exactly the values the template
interpolates (parts interpolating an exception text, which the model keeps
abstract, carry nothing).  The fixed `suggestion` strings are embedded by
`PySuggestion`, one constructor per literal. -/

inductive PySuggestion : Type where
  /-- The literal "Fix the syntax error to make the code valid Python" -/
  | fixSyntax : PySuggestion
  /-- The literal "Check file encoding and content" -/
  | checkEncoding : PySuggestion
  /-- The literal "Break the line into multiple lines or use line continuation" -/
  | breakLine : PySuggestion
  /-- The literal "Consider breaking down the function into smaller, simpler functions" -/
  | simplifyFunction : PySuggestion
  /-- The literal "Consider splitting the class into multiple classes" -/
  | splitClass : PySuggestion
  /-- The literal "Rename function to use snake_case" -/
  | renameFunction : PySuggestion
  /-- The literal "Rename class to use PascalCase" -/
  | renameClass : PySuggestion
  /-- The literal "Rename variable to use snake_case" -/
  | renameVariable : PySuggestion
  deriving DecidableEq

inductive PyMessage : Type where
  /-- Template f"Syntax error: \x7be.msg\x7d" (exception text abstract) -/
  | syntaxErrorMsg : PyMessage
  /-- Template f"Failed to parse file: …" (exception text abstract) -/
  | parsingErrorMsg : PyMessage
  /-- Template f"Could not read file: …" (exception text abstract) -/
  | fileReadErrorMsg : PyMessage
  /-- Template f"Line \x7bline_num\x7d is \x7blen(line.rstrip())\x7d characters long (max \x7bmax_length\x7d)" -/
  | lineTooLong : Nat → Nat → Nat → PyMessage
  /-- Template f"Function … should use snake_case naming" -/
  | functionSnakeCase : String → PyMessage
  /-- Template f"Class … should use PascalCase naming" -/
  | classPascalCase : String → PyMessage
  /-- Template f"Variable … should use snake_case naming" -/
  | variableSnakeCase : String → PyMessage
  /-- Template f"Function … has complexity \x7bcomplexity\x7d (max …)" -/
  | highComplexityMsg : String → Nat → Nat → PyMessage
  /-- Template f"Class … has complexity \x7bcomplexity\x7d (max …)" -/
  | highClassComplexityMsg : String → Nat → Nat → PyMessage
  /-- Template f"Failed to analyze naming conventions: …" -/
  | namingAnalysisErrorMsg : PyMessage
  /-- Template f"Failed to analyze complexity: …" -/
  | complexityAnalysisErrorMsg : PyMessage
  deriving DecidableEq

structure CodeIssue where
  file_path : String
  line_number : Nat
  issue_type : String
  severity : String
  message : PyMessage
  suggestion : Option PySuggestion
  deriving DecidableEq

/-! ## Walk-based counters over a parsed tree

`calculate_metrics` counts `FunctionDef` and `ClassDef` nodes over
`ast.walk(tree)` and sums `_calculate_complexity` over all walked
`FunctionDef` nodes.  No expression node can contain a definition, so the
walk only needs to traverse statements and handlers. -/

mutual

def functionCountS : PyStmt → Nat
  | .functionDef _ _ body => 1 + functionCountSL body
  | .asyncFunctionDef _ _ body => functionCountSL body
  | .classDef _ _ body => functionCountSL body
  | .ifStmt _ body orelse => functionCountSL body + functionCountSL orelse
  | .whileStmt _ body orelse => functionCountSL body + functionCountSL orelse
  | .forStmt _ body orelse => functionCountSL body + functionCountSL orelse
  | .asyncForStmt _ body orelse => functionCountSL body + functionCountSL orelse
  | .tryStmt body handlers orelse finalbody =>
      functionCountSL body + functionCountHL handlers + functionCountSL orelse +
        functionCountSL finalbody
  | .exprStmt _ => 0
  | .assign _ _ => 0
  | .ret _ => 0
  | .passStmt => 0

def functionCountSL : StmtList → Nat
  | .nil => 0
  | .cons s rest => functionCountS s + functionCountSL rest

def functionCountHL : HandlerList → Nat
  | .nil => 0
  | .cons body rest => functionCountSL body + functionCountHL rest

end

mutual

def classCountS : PyStmt → Nat
  | .functionDef _ _ body => classCountSL body
  | .asyncFunctionDef _ _ body => classCountSL body
  | .classDef _ _ body => 1 + classCountSL body
  | .ifStmt _ body orelse => classCountSL body + classCountSL orelse
  | .whileStmt _ body orelse => classCountSL body + classCountSL orelse
  | .forStmt _ body orelse => classCountSL body + classCountSL orelse
  | .asyncForStmt _ body orelse => classCountSL body + classCountSL orelse
  | .tryStmt body handlers orelse finalbody =>
      classCountSL body + classCountHL handlers + classCountSL orelse + classCountSL finalbody
  | .exprStmt _ => 0
  | .assign _ _ => 0
  | .ret _ => 0
  | .passStmt => 0

def classCountSL : StmtList → Nat
  | .nil => 0
  | .cons s rest => classCountS s + classCountSL rest

def classCountHL : HandlerList → Nat
  | .nil => 0
  | .cons body rest => classCountSL body + classCountHL rest

end

mutual

def complexitySumS : PyStmt → Nat
  | .functionDef name lineno body =>
      calculateComplexity (.functionDef name lineno body) + complexitySumSL body
  | .asyncFunctionDef _ _ body => complexitySumSL body
  | .classDef _ _ body => complexitySumSL body
  | .ifStmt _ body orelse => complexitySumSL body + complexitySumSL orelse
  | .whileStmt _ body orelse => complexitySumSL body + complexitySumSL orelse
  | .forStmt _ body orelse => complexitySumSL body + complexitySumSL orelse
  | .asyncForStmt _ body orelse => complexitySumSL body + complexitySumSL orelse
  | .tryStmt body handlers orelse finalbody =>
      complexitySumSL body + complexitySumHL handlers + complexitySumSL orelse +
        complexitySumSL finalbody
  | .exprStmt _ => 0
  | .assign _ _ => 0
  | .ret _ => 0
  | .passStmt => 0

def complexitySumSL : StmtList → Nat
  | .nil => 0
  | .cons s rest => complexitySumS s + complexitySumSL rest

def complexitySumHL : HandlerList → Nat
  | .nil => 0
  | .cons body rest => complexitySumSL body + complexitySumHL rest

end

/-! ## The naming-convention detector (`check_naming_conventions`)

Walks the tree; a `FunctionDef` whose name fails
`name.islower() or '_' in name` gets a warning, a `ClassDef` whose name
fails `name[0].isupper() and '_' not in name` gets a warning, a `Name` in
`Store` context whose id fails the snake-case test and is not an upper-case
constant gets an info issue.  `AsyncFunctionDef` matches none of the
`isinstance` checks. -/

def functionNamingIssue (path : String) (lineno : Nat) (name : String) : CodeIssue :=
  ⟨path, lineno, "naming_convention", "warning", .functionSnakeCase name, some .renameFunction⟩

def classNamingIssue (path : String) (lineno : Nat) (name : String) : CodeIssue :=
  ⟨path, lineno, "naming_convention", "warning", .classPascalCase name, some .renameClass⟩

def variableNamingIssue (path : String) (lineno : Nat) (name : String) : CodeIssue :=
  ⟨path, lineno, "naming_convention", "info", .variableSnakeCase name, some .renameVariable⟩

mutual

def namingE (path : String) : PyExpr → List CodeIssue
  | .boolOp values => namingEL path values
  | .nameStore id lineno =>
      if !pyIslower id.data && !containsUnderscore id.data && !pyIsupper id.data then
        [variableNamingIssue path lineno id]
      else []
  | .nameLoad _ => []
  | .constE => []

def namingEL (path : String) : ExprList → List CodeIssue
  | .nil => []
  | .cons e rest => namingE path e ++ namingEL path rest

end

mutual

def namingS (path : String) : PyStmt → List CodeIssue
  | .functionDef name lineno body =>
      (if !pyIslower name.data && !containsUnderscore name.data then
        [functionNamingIssue path lineno name]
      else []) ++ namingSL path body
  | .asyncFunctionDef _ _ body => namingSL path body
  | .classDef name lineno body =>
      (if !pyFirstUpper name.data || containsUnderscore name.data then
        [classNamingIssue path lineno name]
      else []) ++ namingSL path body
  | .ifStmt test body orelse => namingE path test ++ namingSL path body ++ namingSL path orelse
  | .whileStmt test body orelse => namingE path test ++ namingSL path body ++ namingSL path orelse
  | .forStmt iter body orelse => namingE path iter ++ namingSL path body ++ namingSL path orelse
  | .asyncForStmt iter body orelse =>
      namingE path iter ++ namingSL path body ++ namingSL path orelse
  | .tryStmt body handlers orelse finalbody =>
      namingSL path body ++ namingHL path handlers ++ namingSL path orelse ++
        namingSL path finalbody
  | .exprStmt e => namingE path e
  | .assign target value => namingE path target ++ namingE path value
  | .ret e => namingE path e
  | .passStmt => []

def namingSL (path : String) : StmtList → List CodeIssue
  | .nil => []
  | .cons s rest => namingS path s ++ namingSL path rest

def namingHL (path : String) : HandlerList → List CodeIssue
  | .nil => []
  | .cons body rest => namingSL path body ++ namingHL path rest

end

/-! ## The complexity detector (`analyze_complexity`)

Walks the tree; a `FunctionDef` with `_calculate_complexity(node)` above
`max_function_complexity` and a `ClassDef` with
`_calculate_class_complexity(node)` above `max_class_complexity` each get
one warning.  `AsyncFunctionDef` matches neither `isinstance` check. -/

def highComplexityIssue (path : String) (lineno : Nat) (name : String) (cx maxF : Nat) :
    CodeIssue :=
  ⟨path, lineno, "high_complexity", "warning", .highComplexityMsg name cx maxF,
    some .simplifyFunction⟩

def highClassComplexityIssue (path : String) (lineno : Nat) (name : String) (cx maxC : Nat) :
    CodeIssue :=
  ⟨path, lineno, "high_class_complexity", "warning", .highClassComplexityMsg name cx maxC,
    some .splitClass⟩

mutual

def complexityIssuesS (maxF maxC : Nat) (path : String) : PyStmt → List CodeIssue
  | .functionDef name lineno body =>
      (if maxF < calculateComplexity (.functionDef name lineno body) then
        [highComplexityIssue path lineno name
          (calculateComplexity (.functionDef name lineno body)) maxF]
      else []) ++ complexityIssuesSL maxF maxC path body
  | .asyncFunctionDef _ _ body => complexityIssuesSL maxF maxC path body
  | .classDef name lineno body =>
      (if maxC < calculateClassComplexity body then
        [highClassComplexityIssue path lineno name (calculateClassComplexity body) maxC]
      else []) ++ complexityIssuesSL maxF maxC path body
  | .ifStmt _ body orelse =>
      complexityIssuesSL maxF maxC path body ++ complexityIssuesSL maxF maxC path orelse
  | .whileStmt _ body orelse =>
      complexityIssuesSL maxF maxC path body ++ complexityIssuesSL maxF maxC path orelse
  | .forStmt _ body orelse =>
      complexityIssuesSL maxF maxC path body ++ complexityIssuesSL maxF maxC path orelse
  | .asyncForStmt _ body orelse =>
      complexityIssuesSL maxF maxC path body ++ complexityIssuesSL maxF maxC path orelse
  | .tryStmt body handlers orelse finalbody =>
      complexityIssuesSL maxF maxC path body ++ complexityIssuesHL maxF maxC path handlers ++
        complexityIssuesSL maxF maxC path orelse ++ complexityIssuesSL maxF maxC path finalbody
  | .exprStmt _ => []
  | .assign _ _ => []
  | .ret _ => []
  | .passStmt => []

def complexityIssuesSL (maxF maxC : Nat) (path : String) : StmtList → List CodeIssue
  | .nil => []
  | .cons s rest =>
      complexityIssuesS maxF maxC path s ++ complexityIssuesSL maxF maxC path rest

def complexityIssuesHL (maxF maxC : Nat) (path : String) : HandlerList → List CodeIssue
  | .nil => []
  | .cons body rest =>
      complexityIssuesSL maxF maxC path body ++ complexityIssuesHL maxF maxC path rest

end

/-! ## Files and per-file analyses

Reading and parsing a file can fail; every method of the analyzer opens the
file afresh and wraps its work in `try/except`, so one outcome value
determines every detector's failure branch:

* `ParseOutcome.ok m` — the file reads and `ast.parse` returns a module
  whose body is `m`;
* `ParseOutcome.syntaxFailure lineno` — the file reads but `ast.parse`
  raises `SyntaxError` (with `e.lineno or 0 = lineno`), so every
  tree-consuming method's `except` branch fires while the line-based
  detector still sees the raw lines;
* `ParseOutcome.readFailure` — opening/decoding the file raises, so every
  method's `except` branch fires. -/

inductive ParseOutcome : Type where
  | ok : Module → ParseOutcome
  | syntaxFailure : Nat → ParseOutcome
  | readFailure : ParseOutcome

structure PyFile where
  path : String
  /-- the physical lines as `readlines`/iteration returns them, each still
  carrying its trailing newline (except possibly the last). -/
  lines : List (List Char)
  parsed : ParseOutcome

/-- Embeds `analyze_syntax`: no issue on success; one `syntax_error` issue at the
parser's reported line on a `SyntaxError`; one `parsing_error` issue at
line 0 on any other failure. -/
def syntaxIssues (file : PyFile) : List CodeIssue :=
  match file.parsed with
  | .ok _ => []
  | .syntaxFailure lineno =>
      [⟨file.path, lineno, "syntax_error", "error", .syntaxErrorMsg, some .fixSyntax⟩]
  | .readFailure =>
      [⟨file.path, 0, "parsing_error", "error", .parsingErrorMsg, some .checkEncoding⟩]

/-- The per-line loop of `check_line_length`, enumerating lines from `n`:
the over-limit test uses `len(line.rstrip('\n'))`, while the message
reports `len(line.rstrip())`. -/
def lineLengthScan (path : String) (maxLen : Nat) : Nat → List (List Char) → List CodeIssue
  | _, [] => []
  | n, l :: rest =>
      (if maxLen < (pyRstripNewline l).length then
        [⟨path, n, "line_too_long", "warning", .lineTooLong n (pyRstrip l).length maxLen,
          some .breakLine⟩]
      else []) ++ lineLengthScan path maxLen (n + 1) rest

/-- Embeds `check_line_length`: scans the raw lines (no parse needed); if the file
cannot be read it emits one `file_read_error` issue instead. -/
def checkLineLength (maxLen : Nat) (file : PyFile) : List CodeIssue :=
  match file.parsed with
  | .readFailure => [⟨file.path, 0, "file_read_error", "error", .fileReadErrorMsg, none⟩]
  | _ => lineLengthScan file.path maxLen 1 file.lines

/-- Embeds `check_naming_conventions`: walks the parsed tree; any read/parse
failure is caught by the catch-all handler and converted into one
`naming_analysis_error` issue. -/
def checkNamingConventions (file : PyFile) : List CodeIssue :=
  match file.parsed with
  | .ok m => namingSL file.path m
  | _ => [⟨file.path, 0, "naming_analysis_error", "error", .namingAnalysisErrorMsg, none⟩]

/-- Embeds `analyze_complexity`: walks the parsed tree; any read/parse failure is
caught by the catch-all handler and converted into one
`complexity_analysis_error` issue. -/
def analyzeComplexity (maxF maxC : Nat) (file : PyFile) : List CodeIssue :=
  match file.parsed with
  | .ok m => complexityIssuesSL maxF maxC file.path m
  | _ =>
      [⟨file.path, 0, "complexity_analysis_error", "error", .complexityAnalysisErrorMsg, none⟩]

/-! ## Metrics (`calculate_metrics`) -/

structure CodeMetrics where
  lines_of_code : Int
  comment_lines : Int
  blank_lines : Int
  function_count : Int
  class_count : Int
  complexity : ℚ
  maintainability_index : ℚ
  deriving DecidableEq

def zeroMetrics : CodeMetrics := ⟨0, 0, 0, 0, 0, 0, 0⟩

/-- Embeds `max(0, 171 - 5.2 * complexity - 0.23 * code_lines - 16.2 * function_count)`
with the float literals as exact rationals (`5.2 = 26/5`, `0.23 = 23/100`,
`16.2 = 81/5`). -/
def maintainabilityIndex (complexity : ℚ) (codeLines functionCount : Int) : ℚ :=
  max 0 (171 - 26 / 5 * complexity - 23 / 100 * (codeLines : ℚ) -
    81 / 5 * (functionCount : ℚ))

/-- Embeds `calculate_metrics`: on any read/parse failure the catch-all handler
returns all-zero metrics; otherwise line classes are counted on the raw
lines, definitions are counted over `ast.walk(tree)`, complexity is the sum
of `_calculate_complexity` over all walked `FunctionDef` nodes, and the
maintainability index is derived from those values. -/
def calculateMetrics (file : PyFile) : CodeMetrics :=
  match file.parsed with
  | .ok m =>
      let totalLines : Int := file.lines.length
      let commentLines : Int := file.lines.countP isCommentLine
      let blankLines : Int := file.lines.countP isBlankLine
      let codeLines : Int := totalLines - commentLines - blankLines
      let fc : Nat := functionCountSL m
      let cc : Nat := classCountSL m
      let cx : Nat := complexitySumSL m
      ⟨codeLines, commentLines, blankLines, fc, cc, cx,
        maintainabilityIndex cx codeLines fc⟩
  | _ => zeroMetrics

/-! ## Configuration and scoring -/

structure Config where
  max_line_length : Nat
  max_function_complexity : Nat
  max_class_complexity : Nat
  /-- Embeds `severity_weights`, as an association list with distinct keys (a
  Python dict). -/
  severity_weights : List (String × Int)

def defaultConfig : Config :=
  ⟨79, 10, 20, [("error", 3), ("warning", 2), ("info", 1)]⟩

/-- Embeds `self.config['severity_weights'].get(severity, 1)`. -/
def weightOf (weights : List (String × Int)) (severity : String) : Int :=
  ((weights.find? (fun p => p.1 == severity)).map Prod.snd).getD 1

/-- Python's `round` to an integer: round half to even. -/
def roundHalfEven (y : ℚ) : ℤ :=
  let f := ⌊y⌋
  let r := y - f
  if r < 1 / 2 then f
  else if 1 / 2 < r then f + 1
  else if f % 2 = 0 then f else f + 1

/-- Embeds `round(score, 2)`. -/
def round2 (x : ℚ) : ℚ :=
  (roundHalfEven (100 * x) : ℚ) / 100

/-- Embeds `_calculate_quality_score(issues, metrics)`: returns `100.0`
immediately when the issue list is empty; otherwise sums the configured
severity weights (unknown severities weigh `1`), adds
`min(metrics.complexity * 2, 20)` and `max(0, 50 - maintainability_index)`,
clamps `100 - penalty` at `0` and rounds to two decimal places. -/
def calculateQualityScore (weights : List (String × Int)) (issues : List CodeIssue)
    (metrics : CodeMetrics) : ℚ :=
  if issues.isEmpty then 100
  else
    let totalPenalty : ℚ := (issues.map (fun i => (weightOf weights i.severity : ℚ))).sum
    let complexityPenalty : ℚ := min (metrics.complexity * 2) 20
    let maintainabilityPenalty : ℚ := max 0 (50 - metrics.maintainability_index)
    round2 (max 0 (100 - (totalPenalty + (complexityPenalty + maintainabilityPenalty))))

/-- The scoring function exactly as the spec's §4.5 words it (for
comparison with `calculateQualityScore`): the penalty formula applies to
every issue list, empty or not. -/
def specQualityScore (weights : List (String × Int)) (issues : List CodeIssue)
    (metrics : CodeMetrics) : ℚ :=
  round2 (max 0 (100 - ((issues.map (fun i => (weightOf weights i.severity : ℚ))).sum +
    min (2 * metrics.complexity) 20 + max 0 (50 - metrics.maintainability_index))))

/-! ## The run (`analyze_file` and `run_analysis`) -/

/-- Embeds `analyze_file`: concatenates every detector's issues in program order.
The external-tool runner is modelled as unavailable (its
`subprocess`/`FileNotFoundError` failures are swallowed and contribute
nothing), and the metrics side effect is reproduced in `runAnalysis` by
mapping `calculateMetrics` over the same files. -/
def analyzeFile (config : Config) (file : PyFile) : List CodeIssue :=
  syntaxIssues file ++ checkLineLength config.max_line_length file ++
    checkNamingConventions file ++
    analyzeComplexity config.max_function_complexity config.max_class_complexity file

/-- One iteration of the metrics-aggregation loop of `run_analysis`: adds
the six count fields and never touches `maintainability_index`. -/
def addCounts (acc m : CodeMetrics) : CodeMetrics :=
  ⟨acc.lines_of_code + m.lines_of_code, acc.comment_lines + m.comment_lines,
    acc.blank_lines + m.blank_lines, acc.function_count + m.function_count,
    acc.class_count + m.class_count, acc.complexity + m.complexity,
    acc.maintainability_index⟩

/-- The metrics aggregation of `run_analysis`: fold the count fields from
`CodeMetrics(0,…,0)`, then, if at least one file was analyzed, set
`maintainability_index` to the arithmetic mean of the per-file values. -/
def aggregateMetrics (ms : List CodeMetrics) : CodeMetrics :=
  let base := ms.foldl addCounts zeroMetrics
  if 0 < ms.length then
    ⟨base.lines_of_code, base.comment_lines, base.blank_lines, base.function_count,
      base.class_count, base.complexity,
      (ms.map (fun m => m.maintainability_index)).sum / (ms.length : ℚ)⟩
  else base

structure QualityReport where
  project_path : String
  total_files : Nat
  /-- accumulated as `total_issues += len(file_issues)` per file. -/
  total_issues : Nat
  metrics : CodeMetrics
  issues : List CodeIssue
  /-- Embeds `summary['quality_score']` (the summary's issue tallies are plain
  counts over `issues` and are not separately modelled). -/
  quality_score : ℚ

/-- Embeds `run_analysis` on an already-discovered list of files (file discovery
and ignore filtering are external to the engine): analyzes each file in
order, extends the issue list and the issue counter, aggregates metrics,
and scores the merged project issue list against the aggregate metrics. -/
def runAnalysis (config : Config) (projectPath : String) (files : List PyFile) :
    QualityReport :=
  let allIssues := (files.map (analyzeFile config)).flatten
  let totalIssues := (files.map (fun f => (analyzeFile config f).length)).sum
  let totalMetrics := aggregateMetrics (files.map calculateMetrics)
  ⟨projectPath, files.length, totalIssues, totalMetrics, allIssues,
    calculateQualityScore config.severity_weights allIssues totalMetrics⟩

/-! ## Auxiliary predicates and concrete inputs used by the theorems -/

def ParseOutcome.isOk : ParseOutcome → Bool
  | .ok _ => true
  | .syntaxFailure _ => false
  | .readFailure => false

/-- An expression with no boolean `and`/`or` chain anywhere inside it. -/
def plainE : PyExpr → Bool
  | .boolOp _ => false
  | .nameStore _ _ => true
  | .nameLoad _ => true
  | .constE => true

def plainEL : ExprList → Bool
  | .nil => true
  | .cons e rest => plainE e && plainEL rest

mutual

/-- A statement with no conditional, loop, exception handler or boolean
chain anywhere in its subtree — the constructs `_calculate_complexity`
charges for. -/
def plainS : PyStmt → Bool
  | .functionDef _ _ body => plainSL body
  | .asyncFunctionDef _ _ body => plainSL body
  | .classDef _ _ body => plainSL body
  | .ifStmt _ _ _ => false
  | .whileStmt _ _ _ => false
  | .forStmt _ _ _ => false
  | .asyncForStmt _ _ _ => false
  | .tryStmt body .nil orelse finalbody => plainSL body && plainSL orelse && plainSL finalbody
  | .tryStmt _ (.cons _ _) _ _ => false
  | .exprStmt e => plainE e
  | .assign target value => plainE target && plainE value
  | .ret e => plainE e
  | .passStmt => true

def plainSL : StmtList → Bool
  | .nil => true
  | .cons s rest => plainS s && plainSL rest

end

/-- Embeds `if <test>: pass` with a constant test. -/
def ifPass : PyStmt := .ifStmt .constE (StmtList.one .passStmt) .nil

/-- The body of
`def f(a, b, c): if a: pass; if b: pass; while c: pass` — two `if`
statements and one `while` loop. -/
def twoIfOneWhileBody (a b c : String) : StmtList :=
  .cons (.ifStmt (.nameLoad a) (StmtList.one .passStmt) .nil)
    (.cons (.ifStmt (.nameLoad b) (StmtList.one .passStmt) .nil)
      (.cons (.whileStmt (.nameLoad c) (StmtList.one .passStmt) .nil) .nil))

/-- Embeds `try: pass  except: pass` — one exception-handler clause. -/
def oneHandlerTry : PyStmt :=
  .tryStmt (StmtList.one .passStmt) (.cons (StmtList.one .passStmt) .nil) .nil .nil

/-- Embeds `def inner(): if x: pass` — one `if` inside a nested function. -/
def cInner : PyStmt :=
  .functionDef "inner" 2 (StmtList.one (.ifStmt (.nameLoad "x") (StmtList.one .passStmt) .nil))

/-- Embeds `def outer(): def inner(): if x: pass` — the outer function's only
statement is the nested definition. -/
def cOuter : PyStmt := .functionDef "outer" 1 (StmtList.one cInner)

/-- A method body of complexity `3` (two `if` statements). -/
def methodBody3 : StmtList := .cons ifPass (.cons ifPass .nil)

/-- A method body of complexity `5` (four `if` statements). -/
def methodBody5 : StmtList := .cons ifPass (.cons ifPass (.cons ifPass (.cons ifPass .nil)))

/-- A one-line file whose content fails to parse with a `SyntaxError`
reported at line 1; its single line is short. -/
def badFile : PyFile := ⟨"bad.py", [['x', '\n']], .syntaxFailure 1⟩

/-- An empty file that parses to the empty module. -/
def emptyFile : PyFile := ⟨"empty.py", [], .ok .nil⟩

/-- Metrics with complexity `10` and maintainability index `0` (and no
other content). -/
def metricsC10 : CodeMetrics := ⟨0, 0, 0, 0, 0, 10, 0⟩

/-- A line of three characters plus two trailing spaces: over a limit of 3
only by trailing whitespace. -/
def sampleLongLine : List Char := ['a', 'a', 'a', ' ', ' ']

/-- A sample issue, used to instantiate nonempty issue lists. -/
def sampleIssue : CodeIssue :=
  ⟨"bad.py", 1, "syntax_error", "error", .syntaxErrorMsg, some .fixSyntax⟩

/-! ## Helper lemmas -/

theorem roundHalfEven_intCast (n : ℤ) : roundHalfEven (n : ℚ) = n := by
  rw [roundHalfEven]
  norm_num

theorem round2_intCast (n : ℤ) : round2 (n : ℚ) = n := by
  rw [round2, show ((100 : ℚ) * n) = ((100 * n : ℤ) : ℚ) by push_cast; ring,
    roundHalfEven_intCast]
  push_cast
  ring

theorem plainE_branchesE (e : PyExpr) (h : plainE e = true) : branchesE e = 0 := by
  cases e with
  | boolOp values => simp [plainE] at h
  | nameStore id lineno => rfl
  | nameLoad id => rfl
  | constE => rfl

theorem plainEL_branchesEL : (l : ExprList) → plainEL l = true → branchesEL l = 0
  | .nil, _ => rfl
  | .cons e rest, h => by
      rw [plainEL, Bool.and_eq_true] at h
      rw [branchesEL, plainE_branchesE e h.1, plainEL_branchesEL rest h.2]

mutual

theorem plainS_branchesS : (s : PyStmt) → plainS s = true → branchesS s = 0
  | .functionDef _ _ body, h => plainSL_branchesSL body (by rwa [plainS] at h)
  | .asyncFunctionDef _ _ body, h => plainSL_branchesSL body (by rwa [plainS] at h)
  | .classDef _ _ body, h => plainSL_branchesSL body (by rwa [plainS] at h)
  | .ifStmt _ _ _, h => by rw [plainS] at h; exact absurd h (by simp)
  | .whileStmt _ _ _, h => by rw [plainS] at h; exact absurd h (by simp)
  | .forStmt _ _ _, h => by rw [plainS] at h; exact absurd h (by simp)
  | .asyncForStmt _ _ _, h => by rw [plainS] at h; exact absurd h (by simp)
  | .tryStmt body .nil orelse finalbody, h => by
      rw [plainS, Bool.and_eq_true, Bool.and_eq_true] at h
      rw [branchesS, branchesHL, plainSL_branchesSL body h.1.1,
        plainSL_branchesSL orelse h.1.2, plainSL_branchesSL finalbody h.2]
  | .tryStmt _ (.cons _ _) _ _, h => by rw [plainS] at h; exact absurd h (by simp)
  | .exprStmt e, h => by
      rw [plainS] at h
      rw [branchesS, plainE_branchesE e h]
  | .assign target value, h => by
      rw [plainS, Bool.and_eq_true] at h
      rw [branchesS, plainE_branchesE target h.1, plainE_branchesE value h.2]
  | .ret e, h => by
      rw [plainS] at h
      rw [branchesS, plainE_branchesE e h]
  | .passStmt, _ => rfl

theorem plainSL_branchesSL : (l : StmtList) → plainSL l = true → branchesSL l = 0
  | .nil, _ => rfl
  | .cons s rest, h => by
      rw [plainSL, Bool.and_eq_true] at h
      rw [branchesSL, plainS_branchesS s h.1, plainSL_branchesSL rest h.2]

end

theorem foldl_addCounts : (ms : List CodeMetrics) → (acc : CodeMetrics) →
    ms.foldl addCounts acc =
      ⟨acc.lines_of_code + (ms.map (fun m => m.lines_of_code)).sum,
        acc.comment_lines + (ms.map (fun m => m.comment_lines)).sum,
        acc.blank_lines + (ms.map (fun m => m.blank_lines)).sum,
        acc.function_count + (ms.map (fun m => m.function_count)).sum,
        acc.class_count + (ms.map (fun m => m.class_count)).sum,
        acc.complexity + (ms.map (fun m => m.complexity)).sum,
        acc.maintainability_index⟩
  | [], acc => by simp
  | m :: rest, acc => by
      rw [List.foldl_cons, foldl_addCounts rest]
      simp only [addCounts, List.map_cons, List.sum_cons, CodeMetrics.mk.injEq]
      refine ⟨by ring, by ring, by ring, by ring, by ring, by ring, trivial⟩

/-! ## C1 — quality-score formula -/

/-- C1 (counterexample).  The claim says the metric-derived penalty
terms are applied even for an empty issue list, so that zero issues with
complexity `10` and maintainability index `0` does *not* score `100.0`.
The code returns `100.0` unconditionally whenever the issue list is empty
(`if not issues: return 100.0`), so this very scope scores `100`; the
spec's formula would give `max(0, 100 − (0 + 20 + 50)) = 30`. -/
theorem c1_empty_issues_counterexample :
    calculateQualityScore defaultConfig.severity_weights [] metricsC10 = 100 ∧
    specQualityScore defaultConfig.severity_weights [] metricsC10 = 30 := by
  constructor
  · rfl
  · rw [specQualityScore]
    norm_num [metricsC10, weightOf]
    rw [show ((30 : ℚ)) = ((30 : ℤ) : ℚ) by norm_num, round2_intCast]

/-- C1 (amended).  For every *nonempty* issue list the quality score is
exactly the spec's formula `round(max(0, 100 − penalty), 2)` with
`penalty = Σ severity weights (unknown severities weigh 1) +
min(2·complexity, 20) + max(0, 50 − maintainability_index)`; for an empty
issue list the score is `100.0` regardless of the metrics. -/
theorem c1_score_formula_amended :
    (∀ (weights : List (String × Int)) (issues : List CodeIssue) (metrics : CodeMetrics),
      issues ≠ [] →
      calculateQualityScore weights issues metrics = specQualityScore weights issues metrics) ∧
    (∀ (weights : List (String × Int)) (metrics : CodeMetrics),
      calculateQualityScore weights [] metrics = 100) := by
  constructor
  · intro weights issues metrics h
    simp only [calculateQualityScore, specQualityScore]
    rw [if_neg (by simpa [List.isEmpty_iff] using h)]
    rw [mul_comm metrics.complexity 2, ← add_assoc]
  · intro weights metrics
    rfl

/-- Witness for `c1_score_formula_amended` at a concrete nonempty issue
list. -/
theorem c1_score_formula_amended_witness :
    [sampleIssue] ≠ ([] : List CodeIssue) ∧
    calculateQualityScore defaultConfig.severity_weights [sampleIssue] zeroMetrics =
      specQualityScore defaultConfig.severity_weights [sampleIssue] zeroMetrics :=
  ⟨by simp,
    c1_score_formula_amended.1 defaultConfig.severity_weights [sampleIssue] zeroMetrics
      (by simp)⟩

/-! ## C2 — issues produced for a file that fails to parse -/

/-- C2 (counterexample).  The claim says a file that fails to parse
produces exactly one issue and zero issues from any other detector.  On a
one-line syntactically invalid file the analyzer in fact produces three
issues: the `syntax_error` issue *plus* one `naming_analysis_error` and one
`complexity_analysis_error`, because each tree-based detector parses the
file itself and converts its own `SyntaxError` into a per-detector error
issue. -/
theorem c2_parse_failure_counterexample :
    analyzeFile defaultConfig badFile =
      [⟨"bad.py", 1, "syntax_error", "error", .syntaxErrorMsg, some .fixSyntax⟩,
        ⟨"bad.py", 0, "naming_analysis_error", "error", .namingAnalysisErrorMsg, none⟩,
        ⟨"bad.py", 0, "complexity_analysis_error", "error", .complexityAnalysisErrorMsg, none⟩] ∧
    (analyzeFile defaultConfig badFile).length = 3 := ⟨rfl, rfl⟩

/-- C2 (amended).  For every file that fails to parse, the syntax
analyzer produces exactly one issue, of severity `error` and of kind
`syntax_error` or `parsing_error`; but the other detectors are not silent:
the file's full issue list additionally contains exactly one
`naming_analysis_error` issue and one `complexity_analysis_error` issue,
and whatever the line-length detector finds on the raw lines (that
detector needs no parse). -/
theorem c2_parse_failure_amended :
    ∀ (config : Config) (file : PyFile), file.parsed.isOk = false →
      analyzeFile config file =
        syntaxIssues file ++ checkLineLength config.max_line_length file ++
          [⟨file.path, 0, "naming_analysis_error", "error", .namingAnalysisErrorMsg, none⟩] ++
          [⟨file.path, 0, "complexity_analysis_error", "error",
            .complexityAnalysisErrorMsg, none⟩] ∧
      (syntaxIssues file).length = 1 ∧
      ∀ i ∈ syntaxIssues file, i.severity = "error" ∧
        (i.issue_type = "syntax_error" ∨ i.issue_type = "parsing_error") := by
  intro config file h
  obtain ⟨path, lines, parsed⟩ := file
  cases parsed with
  | ok m => simp [ParseOutcome.isOk] at h
  | syntaxFailure lineno =>
      refine ⟨by simp [analyzeFile, checkNamingConventions, analyzeComplexity], rfl, ?_⟩
      intro i hi
      simp only [syntaxIssues, List.mem_singleton] at hi
      subst hi
      exact ⟨rfl, Or.inl rfl⟩
  | readFailure =>
      refine ⟨by simp [analyzeFile, checkNamingConventions, analyzeComplexity], rfl, ?_⟩
      intro i hi
      simp only [syntaxIssues, List.mem_singleton] at hi
      subst hi
      exact ⟨rfl, Or.inr rfl⟩

/-- Witness for `c2_parse_failure_amended` at a concrete unparsable
file. -/
theorem c2_parse_failure_amended_witness :
    badFile.parsed.isOk = false ∧ (syntaxIssues badFile).length = 1 :=
  ⟨rfl, (c2_parse_failure_amended defaultConfig badFile rfl).2.1⟩

/-! ## C3 — nested function bodies and the outer function's complexity -/

/-- C3 (counterexample).  The claim says constructs inside a nested
function contribute nothing to the outer function's score.  For
`def outer(): def inner(): if x: pass`, the outer function's complexity is
`2`, not `1`: `_calculate_complexity` iterates `ast.walk(node)`, which
descends into the nested function's body and counts its `if`. -/
theorem c3_nested_function_counterexample :
    calculateComplexity cOuter = 2 ∧ calculateComplexity cOuter ≠ 1 :=
  ⟨rfl, by decide⟩

/-- C3 (amended).  `functionComplexity` counts branches, loops,
handlers and boolean chains in the *entire* subtree of the function,
including nested function bodies: an outer function whose body is exactly
one nested definition scores the same as the nested function itself.
Nested functions also get their own independent score, so in the per-file
complexity sum their constructs are counted twice (once via the outer
function, once via their own score). -/
theorem c3_nested_function_amended :
    (∀ (outerName innerName : String) (outerLine innerLine : Nat) (innerBody : StmtList),
      calculateComplexity (.functionDef outerName outerLine
        (StmtList.one (.functionDef innerName innerLine innerBody))) =
      calculateComplexity (.functionDef innerName innerLine innerBody)) ∧
    (∀ (outerName innerName : String) (outerLine innerLine : Nat) (innerBody : StmtList),
      complexitySumS (.functionDef outerName outerLine
        (StmtList.one (.functionDef innerName innerLine innerBody))) =
      calculateComplexity (.functionDef outerName outerLine
        (StmtList.one (.functionDef innerName innerLine innerBody))) +
      complexitySumS (.functionDef innerName innerLine innerBody)) := by
  constructor
  · intro _ _ _ _ innerBody
    simp [calculateComplexity, branchesS, branchesSL, StmtList.one]
  · intro _ _ _ _ innerBody
    simp [complexitySumS, complexitySumSL, StmtList.one]

/-! ## C4 — maintainability index -/

/-- C4.  For every file that parses, the maintainability index of its
metrics equals `max(0, 171 − 5.2·complexity − 0.23·lines_of_code −
16.2·function_count)` with exactly those constants (as exact rationals);
the formula is never negative for any complexity/lines/function-count
triple; and the all-zero triple yields exactly `171`. -/
theorem c4_maintainability_index :
    (∀ (file : PyFile) (m : Module), file.parsed = .ok m →
      (calculateMetrics file).maintainability_index =
        max 0 (171 - 26 / 5 * (calculateMetrics file).complexity -
          23 / 100 * ((calculateMetrics file).lines_of_code : ℚ) -
          81 / 5 * ((calculateMetrics file).function_count : ℚ))) ∧
    (∀ (complexity : ℚ) (codeLines functionCount : Int),
      0 ≤ maintainabilityIndex complexity codeLines functionCount) ∧
    maintainabilityIndex 0 0 0 = 171 := by
  refine ⟨?_, ?_, ?_⟩
  · intro file m h
    obtain ⟨path, lines, parsed⟩ := file
    simp only at h
    subst h
    simp [calculateMetrics, maintainabilityIndex]
  · intro complexity codeLines functionCount
    exact le_max_left 0 _
  · rw [maintainabilityIndex]
    norm_num

/-- Witness for `c4_maintainability_index` at the empty file (which parses
to the empty module). -/
theorem c4_maintainability_index_witness :
    emptyFile.parsed = .ok .nil ∧
    (calculateMetrics emptyFile).maintainability_index =
      max 0 (171 - 26 / 5 * (calculateMetrics emptyFile).complexity -
        23 / 100 * ((calculateMetrics emptyFile).lines_of_code : ℚ) -
        81 / 5 * ((calculateMetrics emptyFile).function_count : ℚ)) :=
  ⟨rfl, c4_maintainability_index.1 emptyFile .nil rfl⟩

/-! ## C5 — what `functionComplexity` counts -/

/-- C5.  `functionComplexity` starts at `1` and charges for
conditionals, loops (including `async for`), exception handlers and
boolean chains: a function containing none of these has complexity exactly
`1`; a function with two `if` statements and one `while` loop has
complexity exactly `4`; a function whose body is a single `return` of one
boolean chain with plain operands has complexity `1 + (operand count − 1)`;
a function whose body is one `try` with a single handler has complexity
`2`. -/
theorem c5_complexity_counting :
    (∀ (name : String) (lineno : Nat) (body : StmtList), plainSL body = true →
      calculateComplexity (.functionDef name lineno body) = 1) ∧
    (∀ (name a b c : String) (lineno : Nat),
      calculateComplexity (.functionDef name lineno (twoIfOneWhileBody a b c)) = 4) ∧
    (∀ (name : String) (lineno : Nat) (values : ExprList), plainEL values = true →
      calculateComplexity (.functionDef name lineno
        (StmtList.one (.ret (.boolOp values)))) = 1 + (ExprList.length values - 1)) ∧
    (∀ (name : String) (lineno : Nat),
      calculateComplexity (.functionDef name lineno (StmtList.one oneHandlerTry)) = 2) := by
  refine ⟨?_, ?_, ?_, ?_⟩
  · intro name lineno body h
    rw [calculateComplexity, branchesS, plainSL_branchesSL body h]
  · intro name a b c lineno
    rfl
  · intro name lineno values h
    simp [calculateComplexity, branchesS, branchesSL, branchesE, StmtList.one,
      plainEL_branchesEL values h]
  · intro name lineno
    rfl

/-- Witness for `c5_complexity_counting` at `def f(): return 1`. -/
theorem c5_complexity_counting_witness :
    plainSL (StmtList.one (.ret .constE)) = true ∧
    calculateComplexity (.functionDef "f" 1 (StmtList.one (.ret .constE))) = 1 :=
  ⟨rfl, c5_complexity_counting.1 "f" 1 (StmtList.one (.ret .constE)) rfl⟩

/-! ## C6 — class complexity -/

/-- C6.  `classComplexity` sums `functionComplexity` over exactly the
function definitions directly in the class body: an empty class body gives
`0`; a nested class in the body contributes nothing (whatever methods it
contains); a class whose body is two methods of complexities `3` and `5`
(plus, possibly, a nested class) has class complexity `8`. -/
theorem c6_class_complexity :
    calculateClassComplexity .nil = 0 ∧
    (∀ (name : String) (lineno : Nat) (classBody rest : StmtList),
      calculateClassComplexity (.cons (.classDef name lineno classBody) rest) =
        calculateClassComplexity rest) ∧
    (∀ (n1 n2 nc : String) (l1 l2 lc : Nat) (b1 b2 bc : StmtList),
      calculateComplexity (.functionDef n1 l1 b1) = 3 →
      calculateComplexity (.functionDef n2 l2 b2) = 5 →
      calculateClassComplexity (.cons (.functionDef n1 l1 b1)
        (.cons (.functionDef n2 l2 b2) (.cons (.classDef nc lc bc) .nil))) = 8) := by
  refine ⟨rfl, ?_, ?_⟩
  · intro name lineno classBody rest
    simp [calculateClassComplexity]
  · intro n1 n2 nc l1 l2 lc b1 b2 bc h1 h2
    simp [calculateClassComplexity, h1, h2]

/-- Witness for `c6_class_complexity` with concrete methods of
complexities `3` and `5` and a nested empty class. -/
theorem c6_class_complexity_witness :
    calculateComplexity (.functionDef "m3" 1 methodBody3) = 3 ∧
    calculateComplexity (.functionDef "m5" 4 methodBody5) = 5 ∧
    calculateClassComplexity (.cons (.functionDef "m3" 1 methodBody3)
      (.cons (.functionDef "m5" 4 methodBody5) (.cons (.classDef "Inner" 9 .nil) .nil))) = 8 :=
  ⟨rfl, rfl,
    c6_class_complexity.2.2 "m3" "m5" "Inner" 1 4 9 methodBody3 methodBody5 .nil rfl rfl⟩

/-! ## C7 — total issue count -/

/-- C7.  For every run, the report's `total_issues` (accumulated per
file) equals the length of the report's issue list, which equals the sum
over files of the per-file issue counts; and for any partition of a fixed
file list into consecutive subsets analyzed separately, the merged total
equals the sum of the subsets' totals. -/
theorem c7_total_issues_invariant :
    ∀ (config : Config) (projectPath : String),
      (∀ files : List PyFile,
        (runAnalysis config projectPath files).total_issues =
          (runAnalysis config projectPath files).issues.length ∧
        (runAnalysis config projectPath files).total_issues =
          (files.map (fun f => (analyzeFile config f).length)).sum) ∧
      (∀ parts : List (List PyFile),
        (runAnalysis config projectPath parts.flatten).total_issues =
          (parts.map (fun part =>
            (runAnalysis config projectPath part).total_issues)).sum) := by
  intro config projectPath
  constructor
  · intro files
    constructor
    · simp [runAnalysis, List.length_flatten, List.map_map]
      rfl
    · rfl
  · intro parts
    simp [runAnalysis, List.map_flatten, List.sum_flatten, List.map_map]
    rfl

/-! ## C8 — project-level metrics aggregation -/

/-- C8.  The project metrics are the fieldwise sums of the per-file
metrics for the six count fields, with `maintainability_index` the simple
arithmetic mean (each file weighted equally) of the per-file values; with
zero analyzed files every aggregate field is zero and the overall score is
`100.0`. -/
theorem c8_metrics_aggregation :
    ∀ (config : Config) (projectPath : String) (files : List PyFile),
      ((runAnalysis config projectPath files).metrics.lines_of_code =
          ((files.map calculateMetrics).map (fun m => m.lines_of_code)).sum ∧
        (runAnalysis config projectPath files).metrics.comment_lines =
          ((files.map calculateMetrics).map (fun m => m.comment_lines)).sum ∧
        (runAnalysis config projectPath files).metrics.blank_lines =
          ((files.map calculateMetrics).map (fun m => m.blank_lines)).sum ∧
        (runAnalysis config projectPath files).metrics.function_count =
          ((files.map calculateMetrics).map (fun m => m.function_count)).sum ∧
        (runAnalysis config projectPath files).metrics.class_count =
          ((files.map calculateMetrics).map (fun m => m.class_count)).sum ∧
        (runAnalysis config projectPath files).metrics.complexity =
          ((files.map calculateMetrics).map (fun m => m.complexity)).sum ∧
        (runAnalysis config projectPath files).metrics.maintainability_index =
          (if files.length = 0 then 0 else
            ((files.map calculateMetrics).map (fun m => m.maintainability_index)).sum /
              (files.length : ℚ))) ∧
      (files = [] →
        (runAnalysis config projectPath files).metrics = zeroMetrics ∧
        (runAnalysis config projectPath files).quality_score = 100) := by
  intro config projectPath files
  constructor
  · cases files with
    | nil =>
        refine ⟨rfl, rfl, rfl, rfl, rfl, rfl, rfl⟩
    | cons f fs =>
        refine ⟨?_, ?_, ?_, ?_, ?_, ?_, ?_⟩ <;>
          simp [runAnalysis, aggregateMetrics, foldl_addCounts, addCounts, zeroMetrics]
  · intro h
    subst h
    exact ⟨rfl, rfl⟩

/-- Witness for `c8_metrics_aggregation` at the empty file list. -/
theorem c8_metrics_aggregation_witness :
    (runAnalysis defaultConfig "proj" []).metrics = zeroMetrics ∧
    (runAnalysis defaultConfig "proj" []).quality_score = 100 :=
  (c8_metrics_aggregation defaultConfig "proj" []).2 rfl

/-! ## C9 — `async def` is invisible to the function-level analyses -/

/-- C9.  `AsyncFunctionDef` nodes are invisible to every
function-level analysis: the node itself adds nothing to the walked
function count or to the per-file complexity sum, the naming and
complexity detectors emit no issue for it (whatever its name or body), a
method list of async definitions contributes nothing to class complexity
(a class with only async methods has class complexity `0`) — and yet an
`async for` loop inside an ordinary function adds `1` to that function's
complexity. -/
theorem c9_async_invisible :
    (∀ (name : String) (lineno : Nat) (body : StmtList),
      functionCountS (.asyncFunctionDef name lineno body) = functionCountSL body) ∧
    (∀ (name : String) (lineno : Nat) (body : StmtList),
      complexitySumS (.asyncFunctionDef name lineno body) = complexitySumSL body) ∧
    (∀ (path name : String) (lineno : Nat) (body : StmtList),
      namingS path (.asyncFunctionDef name lineno body) = namingSL path body) ∧
    (∀ (maxF maxC : Nat) (path name : String) (lineno : Nat) (body : StmtList),
      complexityIssuesS maxF maxC path (.asyncFunctionDef name lineno body) =
        complexityIssuesSL maxF maxC path body) ∧
    (∀ (name : String) (lineno : Nat) (body rest : StmtList),
      calculateClassComplexity (.cons (.asyncFunctionDef name lineno body) rest) =
        calculateClassComplexity rest) ∧
    (∀ (n1 n2 : String) (l1 l2 : Nat) (b1 b2 : StmtList),
      calculateClassComplexity (.cons (.asyncFunctionDef n1 l1 b1)
        (.cons (.asyncFunctionDef n2 l2 b2) .nil)) = 0) ∧
    (∀ (name target : String) (lineno : Nat),
      calculateComplexity (.functionDef name lineno
        (StmtList.one (.asyncForStmt (.nameLoad target) (StmtList.one .passStmt) .nil))) =
        2) := by
  refine ⟨?_, ?_, ?_, ?_, ?_, ?_, ?_⟩
  · intro name lineno body
    rfl
  · intro name lineno body
    rfl
  · intro path name lineno body
    rfl
  · intro maxF maxC path name lineno body
    rfl
  · intro name lineno body rest
    simp [calculateClassComplexity]
  · intro n1 n2 l1 l2 b1 b2
    rfl
  · intro name target lineno
    rfl

/-! ## C10 — the line-length detector's reported length -/

/-- C10.  The over-limit test of `check_line_length` uses the line
with only its trailing newline removed, while the emitted message reports
the length with all trailing whitespace removed: for every line whose
excess over the limit consists of trailing whitespace, an issue is still
emitted, and the character count named in its message does not exceed the
stated maximum. -/
theorem c10_line_length_report :
    ∀ (path : String) (maxLen n : Nat) (line : List Char),
      maxLen < (pyRstripNewline line).length →
      (pyRstrip line).length ≤ maxLen →
      lineLengthScan path maxLen n [line] =
        [⟨path, n, "line_too_long", "warning",
          .lineTooLong n (pyRstrip line).length maxLen, some .breakLine⟩] ∧
      (pyRstrip line).length ≤ maxLen := by
  intro path maxLen n line h1 h2
  refine ⟨?_, h2⟩
  simp [lineLengthScan, h1]

/-- Witness for `c10_line_length_report`: a three-character line with two
trailing spaces against a limit of `3`. -/
theorem c10_line_length_report_witness :
    3 < (pyRstripNewline sampleLongLine).length ∧
    (pyRstrip sampleLongLine).length ≤ 3 ∧
    lineLengthScan "sample.py" 3 1 [sampleLongLine] =
      [⟨"sample.py", 1, "line_too_long", "warning",
        .lineTooLong 1 (pyRstrip sampleLongLine).length 3, some .breakLine⟩] :=
  ⟨by decide, by decide,
    (c10_line_length_report "sample.py" 3 1 sampleLongLine (by decide) (by decide)).1⟩

end CodeQuality
